import Mathlib

/-!
Shallow embedding of the request pipeline of `src/app.py`, a Flask service
exposing two PDF-conversion endpoints (`/pdf-to-text`, `/pdf-to-html`).

The embedding covers, faithfully to the source:
* werkzeug's `secure_filename` (POSIX branch),
* the two extraction functions `extract_text_from_pdf` / `extract_html_from_pdf`
  built on PyMuPDF (`fitz`), including the Python-level type behaviour of
  `page.get_text("blocks")` (which returns a *list*, so `str += list` raises
  `TypeError`),
* the `require_api_key` decorator,
* the two view functions (validation, temp-file save, extraction, deletion,
  response envelopes),
* flask-limiter's fixed-window rate limiting as configured here.

Framework semantics encoded in the model (they determine behaviour and are not
written in `app.py` itself):
* Flask runs `before_request` hooks before the view function.  flask-limiter
  checks and accounts its limits in such a hook, so rate-limit accounting
  happens *before* the `require_api_key` wrapper runs.
* flask-limiter registers `@limiter.limit(...)` limits under the view
  function's dotted name, so the limits attach to the routes here even though
  the decorator sits above `@app.route`.  Route-specific limits *override* the
  `default_limits` of the `Limiter`, so on the two decorated routes only the
  per-minute route ceilings are enforced, with a fixed window (window index =
  timestamp / window size); a hit increments the counter and then tests it.
* `fitz.open`/page iteration failing is modelled as the whole `with` block
  raising with a message (caught by the `except` in the extraction functions).
* `file.save` failing (an I/O error) is modelled as raising before the
  destination file is created.
-/

/-- An atomic JSON value appearing in the bodies `app.py` builds: a string, an
integer, or an array of strings (the serialization of a Python list of block
tuples, each modelled opaquely as a string). -/
inductive JAtom where
  | str (s : String)
  | num (n : Int)
  | strList (xs : List String)
deriving DecidableEq, Repr

/-- A JSON value one level below the top of a response body: an atom or a flat
object (the `data` sub-object).  The bodies built by `app.py` nest no deeper. -/
inductive JVal where
  | atom (a : JAtom)
  | obj (fields : List (String × JAtom))
deriving DecidableEq, Repr

/-- A JSON response body as handed to Flask's `jsonify`: an object, i.e. an
ordered list of key/value pairs. -/
abbrev JsonBody := List (String × JVal)

/-- An HTTP response: status code and body.  `none` stands for a body produced
by the framework itself rather than by `jsonify` in `app.py` (e.g. the default
HTML page of the 429 raised by flask-limiter). -/
structure Response where
  status : Nat
  body : Option JsonBody
deriving DecidableEq, Repr

/-- The two conversion routes registered in `app.py`. -/
inductive Route where
  | toText
  | toHtml
deriving DecidableEq, Repr

/-- A Python value as it appears in the extraction loops: `page.get_text`
returns a `str` in `"text"` mode and a `list` (of block tuples, modelled
opaquely as strings) in `"blocks"` mode. -/
inductive PyVal where
  | str (s : String)
  | list (xs : List String)
deriving DecidableEq, Repr

/-- Python's `+` on these values: `str + str` and `list + list` succeed;
mixing raises `TypeError` with CPython's message. -/
def pyAdd : PyVal → PyVal → Except String PyVal
  | .str a, .str b => .ok (.str (a ++ b))
  | .list a, .list b => .ok (.list (a ++ b))
  | .str _, .list _ => .error "can only concatenate str (not \"list\") to str"
  | .list _, .str _ => .error "can only concatenate list (not \"str\") to list"

/-- The `get_text` mode strings used in `app.py`: `"text"` and `"blocks"`. -/
inductive TextMode where
  | text
  | blocks
deriving DecidableEq, Repr

/-- One page of an opened document: what `page.get_text` returns in each of
the two modes used by `app.py`. -/
structure Page where
  text : String
  blocks : List String
deriving DecidableEq, Repr

/-- Model of `page.get_text(mode)`: a `str` for `"text"`, a `list` for `"blocks"`. -/
def Page.getText (p : Page) : TextMode → PyVal
  | .text => .str p.text
  | .blocks => .list p.blocks

/-- A document as yielded by `fitz.open`: its sequence of pages. -/
structure PDFDoc where
  pages : List Page
deriving DecidableEq, Repr

/-- What `fitz.open` (and iterating the document) does on the stored bytes:
either yields a document or raises with a message. -/
inductive FitzResult where
  | ok (doc : PDFDoc)
  | raises (msg : String)
deriving DecidableEq, Repr

/-- The accumulation loop `for page in doc: content += page.get_text(mode)`,
starting from accumulator `init`; the first failing `+` propagates as the
raised `TypeError`. -/
def extractLoop (mode : TextMode) (init : PyVal) : List Page → Except String PyVal
  | [] => .ok init
  | p :: rest =>
    match pyAdd init (p.getText mode) with
    | .ok acc => extractLoop mode acc rest
    | .error e => .error e

/-- Function `extract_html_from_pdf` from `app.py`: accumulates
`page.get_text("blocks")` onto the string `""`; any exception inside the `try`
is re-raised as `RuntimeError("Error extracting HTML from PDF: " + e)`. -/
def extract_html_from_pdf : FitzResult → Except String PyVal
  | .raises msg => .error ("Error extracting HTML from PDF: " ++ msg)
  | .ok doc =>
    match extractLoop .blocks (.str "") doc.pages with
    | .ok v => .ok v
    | .error e => .error ("Error extracting HTML from PDF: " ++ e)

/-- Function `extract_text_from_pdf` from `app.py`: accumulates
`page.get_text("text")` onto `""`; any exception inside the `try` is re-raised
as `RuntimeError("Error extracting text from PDF: " + e)`. -/
def extract_text_from_pdf : FitzResult → Except String PyVal
  | .raises msg => .error ("Error extracting text from PDF: " ++ msg)
  | .ok doc =>
    match extractLoop .text (.str "") doc.pages with
    | .ok v => .ok v
    | .error e => .error ("Error extracting text from PDF: " ++ e)

/-- Python's `str.split()` whitespace characters (the ASCII ones; input is
already ASCII at the point werkzeug splits). -/
def pyIsSpace (c : Char) : Bool :=
  c = ' ' || c = '\t' || c = '\n' || c = '\r' || c = '\x0b' || c = '\x0c'

/-- Python's `str.split()` with no separator: split on runs of whitespace,
dropping empty pieces.  `acc` holds the current word, reversed. -/
def pySplitAux : List Char → List Char → List (List Char)
  | [], acc => if acc.isEmpty then [] else [acc.reverse]
  | c :: cs, acc =>
    if pyIsSpace c then
      if acc.isEmpty then pySplitAux cs [] else acc.reverse :: pySplitAux cs []
    else pySplitAux cs (c :: acc)

/-- The character class kept by werkzeug's `_filename_ascii_strip_re`
(`[A-Za-z0-9_.-]`); everything else is deleted. -/
def filenameKeepChar (c : Char) : Bool :=
  c.isAlpha || c.isDigit || c = '_' || c = '.' || c = '-'

/-- Python's `.strip("._")`: drop leading and trailing `.` and `_`. -/
def stripDotUnderscore (cs : List Char) : List Char :=
  ((cs.dropWhile fun c => c = '.' || c = '_').reverse.dropWhile
    fun c => c = '.' || c = '_').reverse

/-- werkzeug's `secure_filename`, POSIX branch (`os.sep = "/"`,
`os.altsep = None`, no Windows device-name special case): NFKD-normalize and
drop non-ASCII (modelled as the ASCII filter, which is exact on ASCII input),
replace `/` by a space, `"_".join(filename.split())`, delete characters
outside `[A-Za-z0-9_.-]`, then strip leading/trailing `.` and `_`. -/
def secure_filename (s : String) : String :=
  let ascii := s.data.filter fun c => c.toNat ≤ 127
  let sepRepl := ascii.map fun c => if c = '/' then ' ' else c
  let joined := List.intercalate ['_'] (pySplitAux sepRepl [])
  String.mk (stripDotUnderscore (joined.filter filenameKeepChar))

/-- Model of Python's `str.lower()` (ASCII case folding; the sanitized
filename is ASCII at this point). -/
def pyLower (s : String) : String := String.mk (s.data.map Char.toLower)

/-- Model of Python's `str.endswith(suffix)`. -/
def pyEndsWith (s suffix : String) : Bool := suffix.data.isSuffixOf s.data

/-- Model of Python's `str.startswith(prefix)`. -/
def pyStartsWith (s pre : String) : Bool := pre.data.isPrefixOf s.data

/-- Model of `os.path.join` for two components on POSIX. -/
def osPathJoin (a b : String) : String :=
  if pyStartsWith b "/" then b
  else if a = "" || pyEndsWith a "/" then a ++ b
  else a ++ "/" ++ b

/-- Value of `app.config['UPLOAD_FOLDER']`. -/
def UPLOAD_FOLDER : String := "./uploads"

/-- Value of `app.config['MAX_CONTENT_LENGTH']` (16 MiB). -/
def MAX_CONTENT_LENGTH : Nat := 16 * 1024 * 1024

/-- The default API key (`os.getenv('API_KEY', 'default-key')`); the pipeline
below is parametric in the configured key. -/
def DEFAULT_API_KEY : String := "default-key"

/-- The `file` part of a multipart request, together with what the
environment does with its bytes: `saveErr = some m` means `file.save` raises
an I/O error with message `m` (before the destination file is created);
`fitz` is what `fitz.open` yields on the saved bytes. -/
structure FilePart where
  filename : String
  saveErr : Option String
  fitz : FitzResult
deriving DecidableEq, Repr

/-- One HTTP request to a conversion route. `time` is the arrival time in
seconds, used by the limiter's fixed windows.  `file = none` models a
multipart body with no `file` field. -/
structure Request where
  route : Route
  authHeader : Option String
  remoteAddr : String
  time : Nat
  file : Option FilePart
deriving DecidableEq, Repr

/-- Observable file-system effects of one request on the upload folder:
paths written by `file.save` and paths deleted by `os.remove`, in order, plus
whether an extraction function was invoked. -/
structure Events where
  saved : List String
  removed : List String
  engineCalled : Bool
deriving DecidableEq, Repr

/-- No file-system effects. -/
def noEvents : Events := ⟨[], [], false⟩

/-- The `{"error": "Unauthorized"}` body. -/
def unauthorizedBody : JsonBody := [("error", .atom (.str "Unauthorized"))]

/-- A validation failure: `{"status": "error", "message": m, "code": 400}`
with HTTP status 400. -/
def validationError (message : String) : Response :=
  ⟨400, some [("status", .atom (.str "error")), ("message", .atom (.str message)),
              ("code", .atom (.num 400))]⟩

/-- Serialization of the accumulated extraction value into the response. -/
def jsonOfPy : PyVal → JAtom
  | .str s => .str s
  | .list xs => .strList xs

/-- The name of the payload field in the success envelope of each route. -/
def contentKey : Route → String
  | .toText => "text"
  | .toHtml => "html"

/-- The success message of each route. -/
def successMessage : Route → String
  | .toText => "Text successfully extracted."
  | .toHtml => "HTML successfully extracted."

/-- The extraction function each route dispatches to. -/
def extractFor : Route → FitzResult → Except String PyVal
  | .toText => extract_text_from_pdf
  | .toHtml => extract_html_from_pdf

/-- The body of `pdf_to_text` / `pdf_to_html` (identical up to the extraction
function and envelope labels): validation checks in source order, then the
`try` block — save, extract, delete, success envelope — with `except
RuntimeError` mapping to a 400 envelope carrying `str(e)` and `except
Exception` mapping to a 500 envelope carrying `str(e)` in `details`. -/
def viewBody (route : Route) (req : Request) : Response × Events :=
  match req.file with
  | none => (validationError "No file provided", noEvents)
  | some fp =>
    if fp.filename = "" then
      (validationError "No file selected", noEvents)
    else
      let filename := secure_filename fp.filename
      if ¬ pyEndsWith (pyLower filename) ".pdf" then
        (validationError "Invalid file type. Only PDF files are allowed.", noEvents)
      else
        let filepath := osPathJoin UPLOAD_FOLDER filename
        match fp.saveErr with
        | some m =>
          (⟨500, some [("status", .atom (.str "error")),
                       ("message", .atom (.str "An unexpected error occurred.")),
                       ("details", .atom (.str m)),
                       ("code", .atom (.num 500))]⟩, noEvents)
        | none =>
          match extractFor route fp.fitz with
          | .error m =>
            (⟨400, some [("status", .atom (.str "error")),
                         ("message", .atom (.str m)),
                         ("code", .atom (.num 400))]⟩,
             ⟨[filepath], [], true⟩)
          | .ok v =>
            (⟨200, some [("status", .atom (.str "success")),
                         ("data", .obj [("filename", .str filename),
                                        (contentKey route, jsonOfPy v)]),
                         ("message", .atom (.str (successMessage route)))]⟩,
             ⟨[filepath], [filepath], true⟩)

/-- The `require_api_key` decorator: rejects with 401 when the
`Authorization` header is absent, falsy (empty), or differs from
`"Bearer " + API_KEY`; otherwise calls the wrapped view. -/
def require_api_key (apiKey : String) (func : Request → Response × Events)
    (req : Request) : Response × Events :=
  match req.authHeader with
  | none => (⟨401, some unauthorizedBody⟩, noEvents)
  | some provided =>
    if provided = "" ∨ provided ≠ "Bearer " ++ apiKey then
      (⟨401, some unauthorizedBody⟩, noEvents)
    else func req

/-- The `@app.errorhandler(500)` function `internal_error`: its body includes
`str(e)` under `details`. -/
def internal_error (e : String) : Response :=
  ⟨500, some [("error", .atom (.str "Internal server error")),
              ("details", .atom (.str e))]⟩

/-- The `@app.errorhandler(404)` function. -/
def not_found_error : Response :=
  ⟨404, some [("error", .atom (.str "Endpoint not found"))]⟩

/-- The `@app.errorhandler(413)` function. -/
def file_too_large : Response :=
  ⟨413, some [("error", .atom (.str "File too large"))]⟩

/-- The `@limiter.limit` ceiling of each route: `"50 per minute"` on
`/pdf-to-text`, `"10 per minute"` on `/pdf-to-html`.  These route-specific
limits override the limiter's `default_limits` on these routes. -/
def routeLimit : Route → Nat
  | .toText => 50
  | .toHtml => 10

/-- A fixed-window counter key of the limiter: client identity (remote
address), route, and the window index (arrival time divided by the 60-second
window). -/
abbrev LimitKey := String × Route × Nat

/-- The limiter's storage: hit counters per fixed-window key. -/
structure ServerState where
  counters : List (LimitKey × Nat)
deriving DecidableEq, Repr

/-- The empty limiter storage. -/
def ServerState.init : ServerState := ⟨[]⟩

/-- Read a counter (0 when absent). -/
def getCount : List (LimitKey × Nat) → LimitKey → Nat
  | [], _ => 0
  | (k', n) :: rest, k => if k = k' then n else getCount rest k

/-- Increment a counter, inserting it at 1 when absent. -/
def bump : List (LimitKey × Nat) → LimitKey → List (LimitKey × Nat)
  | [], k => [(k, 1)]
  | (k', n) :: rest, k =>
    if k = k' then (k', n + 1) :: rest else (k', n) :: bump rest k

/-- The fixed-window counter key a request hits. -/
def limitKey (req : Request) : LimitKey :=
  (req.remoteAddr, req.route, req.time / 60)

/-- The outcome of dispatching one request: the limiter storage afterwards,
the HTTP response, and the file-system effects. -/
structure Outcome where
  state : ServerState
  resp : Response
  events : Events
deriving DecidableEq, Repr

/-- Full dispatch of one request, as Flask runs it: first flask-limiter's
`before_request` hook performs a fixed-window hit (increment, then compare to
the route's ceiling; over the ceiling it aborts with the framework's 429
page), then the registered view — `require_api_key` wrapped around the route's
body — runs. -/
def handle (apiKey : String) (st : ServerState) (req : Request) : Outcome :=
  let k := limitKey req
  let newCount := getCount st.counters k + 1
  let st' : ServerState := ⟨bump st.counters k⟩
  if routeLimit req.route < newCount then
    ⟨st', ⟨429, none⟩, noEvents⟩
  else
    let (resp, ev) := require_api_key apiKey (viewBody req.route) req
    ⟨st', resp, ev⟩

/-- Dispatch a sequence of requests, threading the limiter storage. -/
def handleMany (apiKey : String) : ServerState → List Request → ServerState
  | st, [] => st
  | st, r :: rs => handleMany apiKey (handle apiKey st r).state rs

/-- A request is within its route's ceiling: after the limiter's increment the
counter does not exceed the `@limiter.limit` value. -/
abbrev withinLimit (st : ServerState) (req : Request) : Prop :=
  getCount st.counters (limitKey req) + 1 ≤ routeLimit req.route

/-- Fixture: a validated text-route request whose extraction raises (a
corrupt PDF). -/
def c1req : Request :=
  { route := .toText, authHeader := some "Bearer secret", remoteAddr := "1.2.3.4",
    time := 0, file := some ⟨"sample.pdf", none, .raises "broken xref"⟩ }

/-- Fixture: a validated request whose `file.save` raises with one message. -/
def c2reqA : Request :=
  { route := .toText, authHeader := some "Bearer secret", remoteAddr := "1.2.3.4",
    time := 0,
    file := some ⟨"sample.pdf", some "No space left on device: uploads/sample.pdf",
                  .raises "never opened"⟩ }

/-- Fixture: the same request as `c2reqA` except for the raised message. -/
def c2reqB : Request :=
  { route := .toText, authHeader := some "Bearer secret", remoteAddr := "1.2.3.4",
    time := 0,
    file := some ⟨"sample.pdf", some "Read-only file system", .raises "never opened"⟩ }

/-- Fixture: a request with no `Authorization` header. -/
def c3req : Request :=
  { route := .toText, authHeader := none, remoteAddr := "1.2.3.4", time := 0,
    file := none }

/-- Fixture: an authorized text-route request with no file part, arriving at
time `t` (one per minute in the C4 scenario). -/
def c4req (t : Nat) : Request :=
  { route := .toText, authHeader := some "Bearer secret", remoteAddr := "9.9.9.9",
    time := t, file := none }

/-- Fixture: the limiter storage after 50 requests from one client to
`/pdf-to-text`, one per minute, all inside the same hour. -/
def c4state : ServerState :=
  handleMany "secret" ServerState.init ((List.range 50).map fun i => c4req (60 * i))

/-- Fixture: an authorized html-route request. -/
def c4overReq : Request :=
  { route := .toHtml, authHeader := some "Bearer secret", remoteAddr := "9.9.9.9",
    time := 0, file := none }

/-- Fixture: a storage in which `c4overReq`'s client has exhausted the
html-route per-minute ceiling. -/
def c4overState : ServerState := ⟨[(limitKey c4overReq, 10)]⟩

/-- Fixture: a well-formed upload sent with a wrong bearer token. -/
def c5req : Request :=
  { route := .toText, authHeader := some "Bearer wrong", remoteAddr := "1.2.3.4",
    time := 0, file := some ⟨"sample.pdf", none, .ok ⟨[⟨"hello", ["b"]⟩]⟩⟩ }

/-- Fixture: an authorized request with no `file` field. -/
def c6reqA : Request :=
  { route := .toText, authHeader := some "Bearer secret", remoteAddr := "1.2.3.4",
    time := 0, file := none }

/-- Fixture: an authorized request whose file has an empty filename. -/
def c6reqB : Request :=
  { route := .toText, authHeader := some "Bearer secret", remoteAddr := "1.2.3.4",
    time := 0, file := some ⟨"", none, .raises "never opened"⟩ }

/-- Fixture: an authorized request uploading a non-PDF filename. -/
def c6reqC : Request :=
  { route := .toText, authHeader := some "Bearer secret", remoteAddr := "1.2.3.4",
    time := 0, file := some ⟨"notes.txt", none, .raises "never opened"⟩ }

/-- Fixture: an authorized, validated request whose extraction raises. -/
def c7req : Request :=
  { route := .toText, authHeader := some "Bearer secret", remoteAddr := "1.2.3.4",
    time := 0, file := some ⟨"sample.pdf", none, .raises "broken xref"⟩ }

/-- Fixture: an authorized upload of a one-page PDF that extracts cleanly. -/
def c8req : Request :=
  { route := .toText, authHeader := some "Bearer secret", remoteAddr := "1.2.3.4",
    time := 0, file := some ⟨"sample.pdf", none, .ok ⟨[⟨"page text", ["b"]⟩]⟩⟩ }

/-- Fixture: a validated upload named `sample.pdf` from one client. -/
def c9reqA : Request :=
  { route := .toText, authHeader := some "Bearer secret", remoteAddr := "1.1.1.1",
    time := 0, file := some ⟨"sample.pdf", none, .ok ⟨[⟨"alice", ["a"]⟩]⟩⟩ }

/-- Fixture: a different request (other client, other bytes) that declares
the same filename `sample.pdf`. -/
def c9reqB : Request :=
  { route := .toText, authHeader := some "Bearer secret", remoteAddr := "2.2.2.2",
    time := 0, file := some ⟨"sample.pdf", none, .ok ⟨[⟨"bob", ["b"]⟩]⟩⟩ }

/-- Fixture: an authorized upload of a one-page PDF to `/pdf-to-html`. -/
def c10req : Request :=
  { route := .toHtml, authHeader := some "Bearer secret", remoteAddr := "1.2.3.4",
    time := 0, file := some ⟨"sample.pdf", none, .ok ⟨[⟨"hello", ["block1"]⟩]⟩⟩ }

/-- The string `"Bearer " ++ k` is never the empty string. -/
theorem bearer_ne_empty (k : String) : "Bearer " ++ k ≠ "" := by
  intro h
  have hlen := congrArg String.length h
  rw [String.length_append] at hlen
  have h7 : "Bearer ".length = 7 := rfl
  have h0 : ("" : String).length = 0 := rfl
  rw [h7, h0] at hlen
  omega

/-- Incrementing a fixed-window counter raises exactly that counter by 1. -/
theorem getCount_bump (l : List (LimitKey × Nat)) (k : LimitKey) :
    getCount (bump l k) k = getCount l k + 1 := by
  induction l with
  | nil => simp [bump, getCount]
  | cons hd tl ih =>
    obtain ⟨k', n⟩ := hd
    by_cases hk : k = k'
    · simp [bump, getCount, hk]
    · simp [bump, getCount, hk, ih]

/-- Unfolding `handle` when the request is within its route ceiling. -/
theorem handle_within (apiKey : String) (st : ServerState) (req : Request)
    (h : withinLimit st req) :
    handle apiKey st req =
      ⟨⟨bump st.counters (limitKey req)⟩,
       (require_api_key apiKey (viewBody req.route) req).1,
       (require_api_key apiKey (viewBody req.route) req).2⟩ := by
  unfold handle
  rw [if_neg (Nat.not_lt.mpr h)]

/-- Unfolding `handle` when the request exceeds its route ceiling. -/
theorem handle_over (apiKey : String) (st : ServerState) (req : Request)
    (h : routeLimit req.route < getCount st.counters (limitKey req) + 1) :
    handle apiKey st req =
      ⟨⟨bump st.counters (limitKey req)⟩, ⟨429, none⟩, noEvents⟩ := by
  unfold handle
  rw [if_pos h]

/-- Lemma: `require_api_key` admits a request carrying exactly `"Bearer " + key`. -/
theorem require_api_key_pass (apiKey : String) (f : Request → Response × Events)
    (req : Request) (h : req.authHeader = some ("Bearer " ++ apiKey)) :
    require_api_key apiKey f req = f req := by
  unfold require_api_key
  rw [h]
  simp [bearer_ne_empty]

/-- Lemma: `require_api_key` rejects any other header with the 401 envelope and no
file-system effects. -/
theorem require_api_key_fail (apiKey : String) (f : Request → Response × Events)
    (req : Request) (h : req.authHeader ≠ some ("Bearer " ++ apiKey)) :
    require_api_key apiKey f req = (⟨401, some unauthorizedBody⟩, noEvents) := by
  unfold require_api_key
  cases hah : req.authHeader with
  | none => rfl
  | some provided =>
    have hne : provided ≠ "Bearer " ++ apiKey := by
      intro heq
      exact h (hah ▸ heq ▸ rfl)
    exact if_pos (Or.inr hne)

/-- Lemma: `viewBody` on a request with no `file` field. -/
theorem viewBody_no_file (route : Route) (req : Request) (hf : req.file = none) :
    viewBody route req = (validationError "No file provided", noEvents) := by
  simp only [viewBody, hf]

/-- Lemma: `viewBody` on a request whose file has an empty filename. -/
theorem viewBody_empty_name (route : Route) (req : Request) (fp : FilePart)
    (hf : req.file = some fp) (hn : fp.filename = "") :
    viewBody route req = (validationError "No file selected", noEvents) := by
  simp only [viewBody, hf]
  rw [if_pos hn]

/-- Lemma: `viewBody` on a request whose sanitized filename is not `.pdf`-suffixed. -/
theorem viewBody_bad_type (route : Route) (req : Request) (fp : FilePart)
    (hf : req.file = some fp) (hn : fp.filename ≠ "")
    (hp : ¬ pyEndsWith (pyLower (secure_filename fp.filename)) ".pdf" = true) :
    viewBody route req =
      (validationError "Invalid file type. Only PDF files are allowed.", noEvents) := by
  simp only [viewBody, hf]
  rw [if_neg hn]
  rw [if_pos hp]

/-- Lemma: `viewBody` on a validated request whose `file.save` raises: the
`except Exception` branch answers 500 with `str(e)` under `details`. -/
theorem viewBody_save_fails (route : Route) (req : Request) (fp : FilePart) (m : String)
    (hf : req.file = some fp) (hn : fp.filename ≠ "")
    (hp : pyEndsWith (pyLower (secure_filename fp.filename)) ".pdf" = true)
    (hs : fp.saveErr = some m) :
    viewBody route req =
      (⟨500, some [("status", .atom (.str "error")),
                   ("message", .atom (.str "An unexpected error occurred.")),
                   ("details", .atom (.str m)),
                   ("code", .atom (.num 500))]⟩, noEvents) := by
  simp only [viewBody, hf]
  rw [if_neg hn]
  rw [if_neg (by simp [hp])]
  simp only [hs]

/-- Lemma: `viewBody` on a validated, saved request whose extraction raises
`RuntimeError`: the file is saved, never removed, and the answer is the 400
envelope carrying `str(e)`. -/
theorem viewBody_engine_error (route : Route) (req : Request) (fp : FilePart) (m : String)
    (hf : req.file = some fp) (hn : fp.filename ≠ "")
    (hp : pyEndsWith (pyLower (secure_filename fp.filename)) ".pdf" = true)
    (hs : fp.saveErr = none) (he : extractFor route fp.fitz = .error m) :
    viewBody route req =
      (⟨400, some [("status", .atom (.str "error")),
                   ("message", .atom (.str m)),
                   ("code", .atom (.num 400))]⟩,
       ⟨[osPathJoin UPLOAD_FOLDER (secure_filename fp.filename)], [], true⟩) := by
  simp only [viewBody, hf]
  rw [if_neg hn]
  rw [if_neg (by simp [hp])]
  simp only [hs, he]

/-- Lemma: `viewBody` on a validated, saved request whose extraction succeeds: the
file is saved then removed, and the answer is the success envelope. -/
theorem viewBody_engine_ok (route : Route) (req : Request) (fp : FilePart) (v : PyVal)
    (hf : req.file = some fp) (hn : fp.filename ≠ "")
    (hp : pyEndsWith (pyLower (secure_filename fp.filename)) ".pdf" = true)
    (hs : fp.saveErr = none) (he : extractFor route fp.fitz = .ok v) :
    viewBody route req =
      (⟨200, some [("status", .atom (.str "success")),
                   ("data", .obj [("filename", .str (secure_filename fp.filename)),
                                  (contentKey route, jsonOfPy v)]),
                   ("message", .atom (.str (successMessage route)))]⟩,
       ⟨[osPathJoin UPLOAD_FOLDER (secure_filename fp.filename)],
        [osPathJoin UPLOAD_FOLDER (secure_filename fp.filename)], true⟩) := by
  simp only [viewBody, hf]
  rw [if_neg hn]
  rw [if_neg (by simp [hp])]
  simp only [hs, he]

/-- The view bodies never answer 401: validation failures are 400, engine
failures 400, unexpected failures 500, success 200. -/
theorem viewBody_status_ne_401 (route : Route) (req : Request) :
    (viewBody route req).1.status ≠ 401 := by
  cases hf : req.file with
  | none => rw [viewBody_no_file route req hf]; simp [validationError]
  | some fp =>
    by_cases hn : fp.filename = ""
    · rw [viewBody_empty_name route req fp hf hn]; simp [validationError]
    · by_cases hp : pyEndsWith (pyLower (secure_filename fp.filename)) ".pdf" = true
      · cases hs : fp.saveErr with
        | some m => rw [viewBody_save_fails route req fp m hf hn hp hs]; simp
        | none =>
          cases he : extractFor route fp.fitz with
          | error m => rw [viewBody_engine_error route req fp m hf hn hp hs he]; simp
          | ok v => rw [viewBody_engine_ok route req fp v hf hn hp hs he]; simp
      · rw [viewBody_bad_type route req fp hf hn hp]; simp [validationError]

/-- Lemma: on a validated request whose save succeeds, the view stores the
upload at `./uploads/<secure_filename(filename)>`, whatever extraction does. -/
theorem viewBody_saved_path (route : Route) (req : Request) (fp : FilePart)
    (hf : req.file = some fp) (hn : fp.filename ≠ "")
    (hp : pyEndsWith (pyLower (secure_filename fp.filename)) ".pdf" = true)
    (hs : fp.saveErr = none) :
    (viewBody route req).2.saved
      = [osPathJoin UPLOAD_FOLDER (secure_filename fp.filename)] := by
  cases he : extractFor route fp.fitz with
  | error m => rw [viewBody_engine_error route req fp m hf hn hp hs he]
  | ok v => rw [viewBody_engine_ok route req fp v hf hn hp hs he]

/-- Lemma: on any document with at least one page, `extract_html_from_pdf`
raises: the first `html_content += page.get_text("blocks")` adds a `list` to a
`str`, and the resulting `TypeError` is re-raised as `RuntimeError`. -/
theorem extract_html_nonempty (doc : PDFDoc) (h : doc.pages ≠ []) :
    extract_html_from_pdf (.ok doc)
      = .error "Error extracting HTML from PDF: can only concatenate str (not \"list\") to str" := by
  obtain ⟨p, rest, hp⟩ := List.exists_cons_of_ne_nil h
  simp only [extract_html_from_pdf]
  rw [hp]
  rfl

/-- C1 (counterexample): a validated `/pdf-to-text` request whose extraction
raises `RuntimeError` gets its 400 response while the temporary file has been
created (`saved = ["./uploads/sample.pdf"]`) but never removed
(`removed = []`) — the claim that the file is removed exactly once on the
extraction-failure exit path is false. -/
theorem C1_counterexample :
    (handle "secret" ServerState.init c1req).resp.status = 400
    ∧ (handle "secret" ServerState.init c1req).events.saved = ["./uploads/sample.pdf"]
    ∧ (handle "secret" ServerState.init c1req).events.removed = [] :=
  ⟨rfl, rfl, rfl⟩

/-- C1 (amended): for every request that passes validation and whose save
succeeds, the temporary file is created at the computed path; it is removed
exactly once when extraction succeeds, but when the engine raises
(`RuntimeError`) the handler returns without removing it — the temporary file
leaks (`os.remove` sits inside the `try`, not in a `finally`). -/
theorem C1_cleanup_paths (apiKey : String) (st : ServerState) (req : Request) (fp : FilePart)
    (hw : withinLimit st req) (ha : req.authHeader = some ("Bearer " ++ apiKey))
    (hf : req.file = some fp) (hn : fp.filename ≠ "")
    (hp : pyEndsWith (pyLower (secure_filename fp.filename)) ".pdf" = true)
    (hs : fp.saveErr = none) :
    (∀ v, extractFor req.route fp.fitz = .ok v →
      (handle apiKey st req).events.saved
          = [osPathJoin UPLOAD_FOLDER (secure_filename fp.filename)]
      ∧ (handle apiKey st req).events.removed
          = [osPathJoin UPLOAD_FOLDER (secure_filename fp.filename)])
    ∧ (∀ m, extractFor req.route fp.fitz = .error m →
      (handle apiKey st req).events.saved
          = [osPathJoin UPLOAD_FOLDER (secure_filename fp.filename)]
      ∧ (handle apiKey st req).events.removed = []) := by
  rw [handle_within apiKey st req hw, require_api_key_pass apiKey _ req ha]
  constructor
  · intro v he
    rw [viewBody_engine_ok req.route req fp v hf hn hp hs he]
    exact ⟨rfl, rfl⟩
  · intro m he
    rw [viewBody_engine_error req.route req fp m hf hn hp hs he]
    exact ⟨rfl, rfl⟩

/-- C1 (witness): the amended theorem evaluated on `c1req`. -/
theorem C1_cleanup_paths_witness :
    (handle "secret" ServerState.init c1req).events.saved = ["./uploads/sample.pdf"]
    ∧ (handle "secret" ServerState.init c1req).events.removed = [] := by
  have h := (C1_cleanup_paths "secret" ServerState.init c1req
    ⟨"sample.pdf", none, .raises "broken xref"⟩
    (by decide) rfl rfl (by decide) (by decide) rfl).2
    "Error extracting text from PDF: broken xref" rfl
  rw [h.1, h.2]
  exact ⟨rfl, rfl⟩

/-- C2 (counterexample): two requests identical except for the internal
exception raised both get a 500, but their JSON bodies differ — the body
carries the raw exception text, so 500 responses are not identical across
internal failures. -/
theorem C2_counterexample :
    (handle "secret" ServerState.init c2reqA).resp.status = 500
    ∧ (handle "secret" ServerState.init c2reqB).resp.status = 500
    ∧ (handle "secret" ServerState.init c2reqA).resp.body
        ≠ (handle "secret" ServerState.init c2reqB).resp.body := by
  refine ⟨rfl, rfl, ?_⟩
  decide

/-- C2 (amended): on an unexpected (non-`RuntimeError`) exception the response
is a 500 whose `message` field is the generic text, but whose `details` field
contains `str(e)` — the raw exception text — verbatim; consequently two runs
differing only in the internal exception produce different bodies. -/
theorem C2_internal_error_leak (apiKey : String) (st : ServerState) (req : Request)
    (fp : FilePart) (m : String)
    (hw : withinLimit st req) (ha : req.authHeader = some ("Bearer " ++ apiKey))
    (hf : req.file = some fp) (hn : fp.filename ≠ "")
    (hp : pyEndsWith (pyLower (secure_filename fp.filename)) ".pdf" = true)
    (hs : fp.saveErr = some m) :
    (handle apiKey st req).resp
      = ⟨500, some [("status", .atom (.str "error")),
                    ("message", .atom (.str "An unexpected error occurred.")),
                    ("details", .atom (.str m)),
                    ("code", .atom (.num 500))]⟩ := by
  rw [handle_within apiKey st req hw, require_api_key_pass apiKey _ req ha,
      viewBody_save_fails req.route req fp m hf hn hp hs]

/-- C2 (witness): the amended theorem evaluated on `c2reqB`. -/
theorem C2_internal_error_leak_witness :
    (handle "secret" ServerState.init c2reqB).resp
      = ⟨500, some [("status", .atom (.str "error")),
                    ("message", .atom (.str "An unexpected error occurred.")),
                    ("details", .atom (.str "Read-only file system")),
                    ("code", .atom (.num 500))]⟩ :=
  C2_internal_error_leak "secret" ServerState.init c2reqB
    ⟨"sample.pdf", some "Read-only file system", .raises "never opened"⟩
    "Read-only file system" (by decide) rfl rfl (by decide) (by decide) rfl

/-- C3 (counterexample): a request with no `Authorization` header is answered
401, yet its rate-limit counter has been incremented to 1 — rate-limit
accounting happens before authentication, so the claimed Auth → RateLimit
order (and "no counter incremented by an unauthorized request") is false. -/
theorem C3_counterexample :
    (handle "secret" ServerState.init c3req).resp.status = 401
    ∧ getCount (handle "secret" ServerState.init c3req).state.counters (limitKey c3req) = 1 :=
  ⟨rfl, rfl⟩

/-- C3 (amended): within one request the stages run in the order
RateLimit → Auth → Validate → Store → Extract → Cleanup: the limiter's
`before_request` hook increments the client's fixed-window counter on every
request, including unauthorized ones; an over-ceiling request is dropped with
429 before auth or any file handling; a within-ceiling unauthorized request is
dropped with 401 before validation or any file handling. -/
theorem C3_pipeline_order (apiKey : String) (st : ServerState) (req : Request) :
    (handle apiKey st req).state.counters = bump st.counters (limitKey req)
    ∧ (routeLimit req.route < getCount st.counters (limitKey req) + 1 →
        (handle apiKey st req).resp = ⟨429, none⟩
        ∧ (handle apiKey st req).events = noEvents)
    ∧ (withinLimit st req → req.authHeader ≠ some ("Bearer " ++ apiKey) →
        (handle apiKey st req).resp = ⟨401, some unauthorizedBody⟩
        ∧ (handle apiKey st req).events = noEvents) := by
  refine ⟨?_, fun hover => ?_, fun hw hbad => ?_⟩
  · by_cases h : routeLimit req.route < getCount st.counters (limitKey req) + 1
    · rw [handle_over apiKey st req h]
    · rw [handle_within apiKey st req (Nat.not_lt.mp h)]
  · rw [handle_over apiKey st req hover]; exact ⟨rfl, rfl⟩
  · rw [handle_within apiKey st req hw, require_api_key_fail apiKey _ req hbad]
    exact ⟨rfl, rfl⟩

/-- C3 (witness): the amended theorem evaluated on `c3req`. -/
theorem C3_pipeline_order_witness :
    (handle "secret" ServerState.init c3req).state.counters
        = bump ServerState.init.counters (limitKey c3req)
    ∧ ((handle "secret" ServerState.init c3req).resp = ⟨401, some unauthorizedBody⟩
        ∧ (handle "secret" ServerState.init c3req).events = noEvents) :=
  ⟨(C3_pipeline_order "secret" ServerState.init c3req).1,
   (C3_pipeline_order "secret" ServerState.init c3req).2.2 (by decide) (by decide)⟩

set_option maxRecDepth 4000

/-- C4 (counterexample): 51 requests from one client to `/pdf-to-text`, one
per minute and all within a single hour, never hit a 429 — the 51st still
reaches validation (it is answered 400 "No file provided") even though the
limiter's configured global ceiling of 50 per hour has been exceeded, because
the route-specific per-minute limits override the global defaults on these
routes. -/
theorem C4_counterexample :
    ((List.range 51).all fun i => (c4req (60 * i)).time < 3600) = true
    ∧ (handle "secret" c4state (c4req 3000)).resp = validationError "No file provided" :=
  ⟨by decide, by decide⟩

/-- C4 (amended): only the per-route per-minute ceilings are enforced on the
two conversion routes (their `@limiter.limit` values override the limiter's
global per-day/per-hour defaults): a request over its route ceiling gets 429
and does not proceed to validation or extraction; a request within the ceiling
increments exactly its fixed-window route counter by 1 and proceeds to the
view; and the `/pdf-to-html` ceiling (10/minute) is stricter than the
`/pdf-to-text` ceiling (50/minute). -/
theorem C4_rate_limit_enforcement (apiKey : String) (st : ServerState) (req : Request) :
    routeLimit .toHtml < routeLimit .toText
    ∧ (routeLimit req.route < getCount st.counters (limitKey req) + 1 →
        (handle apiKey st req).resp = ⟨429, none⟩
        ∧ (handle apiKey st req).events = noEvents)
    ∧ (withinLimit st req →
        getCount (handle apiKey st req).state.counters (limitKey req)
          = getCount st.counters (limitKey req) + 1
        ∧ (handle apiKey st req).resp = (require_api_key apiKey (viewBody req.route) req).1
        ∧ (handle apiKey st req).events
            = (require_api_key apiKey (viewBody req.route) req).2) := by
  refine ⟨by decide, fun hover => ?_, fun hw => ?_⟩
  · rw [handle_over apiKey st req hover]; exact ⟨rfl, rfl⟩
  · rw [handle_within apiKey st req hw]
    exact ⟨getCount_bump st.counters (limitKey req), rfl, rfl⟩

/-- C4 (witness): the amended theorem evaluated at a storage where the
html-route ceiling is exhausted, and at the empty storage. -/
theorem C4_rate_limit_enforcement_witness :
    routeLimit .toHtml < routeLimit .toText
    ∧ ((handle "secret" c4overState c4overReq).resp = ⟨429, none⟩
       ∧ (handle "secret" c4overState c4overReq).events = noEvents)
    ∧ (getCount (handle "secret" ServerState.init c4overReq).state.counters
          (limitKey c4overReq) = getCount ServerState.init.counters (limitKey c4overReq) + 1) :=
  ⟨(C4_rate_limit_enforcement "secret" c4overState c4overReq).1,
   (C4_rate_limit_enforcement "secret" c4overState c4overReq).2.1 (by decide),
   ((C4_rate_limit_enforcement "secret" ServerState.init c4overReq).2.2 (by decide)).1⟩

/-- C5: a request that is not rate-limited is admitted past the auth gate if
and only if its `Authorization` header equals `"Bearer " ++ secret` (admission
meaning the view runs — and no view path answers 401); any other header
(absent, empty, or different) yields exactly
`401 {"error": "Unauthorized"}` with no temporary file created. -/
theorem C5_auth_gate (apiKey : String) (st : ServerState) (req : Request)
    (hw : withinLimit st req) :
    ((req.authHeader = some ("Bearer " ++ apiKey)) ↔
      (handle apiKey st req).resp.status ≠ 401)
    ∧ (req.authHeader ≠ some ("Bearer " ++ apiKey) →
        (handle apiKey st req).resp = ⟨401, some unauthorizedBody⟩
        ∧ (handle apiKey st req).events.saved = []) := by
  rw [handle_within apiKey st req hw]
  by_cases h : req.authHeader = some ("Bearer " ++ apiKey)
  · rw [require_api_key_pass apiKey _ req h]
    exact ⟨⟨fun _ => viewBody_status_ne_401 req.route req, fun _ => h⟩,
           fun hne => absurd h hne⟩
  · rw [require_api_key_fail apiKey _ req h]
    exact ⟨⟨fun hh => absurd hh h, fun hne => absurd rfl hne⟩,
           fun _ => ⟨rfl, rfl⟩⟩

/-- C5 (witness): the theorem evaluated on `c5req` (wrong bearer token). -/
theorem C5_auth_gate_witness :
    (handle "secret" ServerState.init c5req).resp = ⟨401, some unauthorizedBody⟩
    ∧ (handle "secret" ServerState.init c5req).events.saved = [] :=
  (C5_auth_gate "secret" ServerState.init c5req (by decide)).2 (by decide)

/-- C6: for an authenticated (and not rate-limited) request the validation
checks run in source order — no `file` field → 400 "No file provided"; empty
filename → 400 "No file selected"; sanitized filename not ending in `.pdf` →
400 "Invalid file type. Only PDF files are allowed." — and on each failure no
extraction function is called and nothing is written to disk. -/
theorem C6_validation_order (apiKey : String) (st : ServerState) (req : Request)
    (hw : withinLimit st req) (ha : req.authHeader = some ("Bearer " ++ apiKey)) :
    (req.file = none →
      (handle apiKey st req).resp = validationError "No file provided"
      ∧ (handle apiKey st req).events = noEvents)
    ∧ (∀ fp : FilePart, req.file = some fp → fp.filename = "" →
      (handle apiKey st req).resp = validationError "No file selected"
      ∧ (handle apiKey st req).events = noEvents)
    ∧ (∀ fp : FilePart, req.file = some fp → fp.filename ≠ "" →
      ¬ pyEndsWith (pyLower (secure_filename fp.filename)) ".pdf" = true →
      (handle apiKey st req).resp
        = validationError "Invalid file type. Only PDF files are allowed."
      ∧ (handle apiKey st req).events = noEvents) := by
  rw [handle_within apiKey st req hw, require_api_key_pass apiKey _ req ha]
  refine ⟨fun hf => ?_, fun fp hf hn => ?_, fun fp hf hn hp => ?_⟩
  · rw [viewBody_no_file req.route req hf]; exact ⟨rfl, rfl⟩
  · rw [viewBody_empty_name req.route req fp hf hn]; exact ⟨rfl, rfl⟩
  · rw [viewBody_bad_type req.route req fp hf hn hp]; exact ⟨rfl, rfl⟩

/-- C6 (witness): the theorem evaluated on the three failing fixtures. -/
theorem C6_validation_order_witness :
    ((handle "secret" ServerState.init c6reqA).resp = validationError "No file provided"
      ∧ (handle "secret" ServerState.init c6reqA).events = noEvents)
    ∧ ((handle "secret" ServerState.init c6reqB).resp = validationError "No file selected"
      ∧ (handle "secret" ServerState.init c6reqB).events = noEvents)
    ∧ ((handle "secret" ServerState.init c6reqC).resp
        = validationError "Invalid file type. Only PDF files are allowed."
      ∧ (handle "secret" ServerState.init c6reqC).events = noEvents) :=
  ⟨(C6_validation_order "secret" ServerState.init c6reqA (by decide) rfl).1 rfl,
   (C6_validation_order "secret" ServerState.init c6reqB (by decide) rfl).2.1
     ⟨"", none, .raises "never opened"⟩ rfl rfl,
   (C6_validation_order "secret" ServerState.init c6reqC (by decide) rfl).2.2
     ⟨"notes.txt", none, .raises "never opened"⟩ rfl (by decide) (by decide)⟩

/-- C7: when the extraction function raises `RuntimeError` on a validated,
authenticated request, the handler catches it and answers exactly
`400 {"status": "error", "message": str(e), "code": 400}` — never 500, and
the exception does not escape. -/
theorem C7_runtime_error_mapped (apiKey : String) (st : ServerState) (req : Request)
    (fp : FilePart) (m : String)
    (hw : withinLimit st req) (ha : req.authHeader = some ("Bearer " ++ apiKey))
    (hf : req.file = some fp) (hn : fp.filename ≠ "")
    (hp : pyEndsWith (pyLower (secure_filename fp.filename)) ".pdf" = true)
    (hs : fp.saveErr = none) (he : extractFor req.route fp.fitz = .error m) :
    (handle apiKey st req).resp
      = ⟨400, some [("status", .atom (.str "error")),
                    ("message", .atom (.str m)),
                    ("code", .atom (.num 400))]⟩
    ∧ (handle apiKey st req).resp.status ≠ 500 := by
  rw [handle_within apiKey st req hw, require_api_key_pass apiKey _ req ha,
      viewBody_engine_error req.route req fp m hf hn hp hs he]
  refine ⟨rfl, ?_⟩
  show (400 : Nat) ≠ 500
  decide

/-- C7 (witness): the theorem evaluated on `c7req`. -/
theorem C7_runtime_error_mapped_witness :
    (handle "secret" ServerState.init c7req).resp
      = ⟨400, some [("status", .atom (.str "error")),
                    ("message", .atom (.str "Error extracting text from PDF: broken xref")),
                    ("code", .atom (.num 400))]⟩
    ∧ (handle "secret" ServerState.init c7req).resp.status ≠ 500 :=
  C7_runtime_error_mapped "secret" ServerState.init c7req
    ⟨"sample.pdf", none, .raises "broken xref"⟩ "Error extracting text from PDF: broken xref"
    (by decide) rfl rfl (by decide) (by decide) rfl rfl

/-- C8: an authenticated, validated `/pdf-to-text` request whose text
extraction succeeds is answered exactly
`200 {"status": "success", "data": {"filename": <sanitized>, "text": <extracted>},
"message": "Text successfully extracted."}`. -/
theorem C8_success_envelope (apiKey : String) (st : ServerState) (req : Request)
    (fp : FilePart) (v : PyVal)
    (hr : req.route = .toText)
    (hw : withinLimit st req) (ha : req.authHeader = some ("Bearer " ++ apiKey))
    (hf : req.file = some fp) (hn : fp.filename ≠ "")
    (hp : pyEndsWith (pyLower (secure_filename fp.filename)) ".pdf" = true)
    (hs : fp.saveErr = none) (he : extract_text_from_pdf fp.fitz = .ok v) :
    (handle apiKey st req).resp
      = ⟨200, some [("status", .atom (.str "success")),
                    ("data", .obj [("filename", .str (secure_filename fp.filename)),
                                   ("text", jsonOfPy v)]),
                    ("message", .atom (.str "Text successfully extracted."))]⟩ := by
  have hee : extractFor req.route fp.fitz = .ok v := by rw [hr]; exact he
  rw [handle_within apiKey st req hw, require_api_key_pass apiKey _ req ha,
      viewBody_engine_ok req.route req fp v hf hn hp hs hee, hr]
  rfl

/-- C8 (witness): the theorem evaluated on `c8req` (one page, text
"page text"). -/
theorem C8_success_envelope_witness :
    (handle "secret" ServerState.init c8req).resp
      = ⟨200, some [("status", .atom (.str "success")),
                    ("data", .obj [("filename", .str "sample.pdf"),
                                   ("text", .str "page text")]),
                    ("message", .atom (.str "Text successfully extracted."))]⟩ := by
  have h := C8_success_envelope "secret" ServerState.init c8req
    ⟨"sample.pdf", none, .ok ⟨[⟨"page text", ["b"]⟩]⟩⟩ (.str "page text")
    rfl (by decide) rfl rfl (by decide) (by decide) rfl rfl
  rw [h]
  rfl

/-- C9 (counterexample): two distinct validated requests (different clients,
different bytes) declaring the same filename `sample.pdf` are both stored at
the same path `./uploads/sample.pdf` — the stored name is not
request-unique. -/
theorem C9_counterexample :
    c9reqA ≠ c9reqB
    ∧ (handle "secret" ServerState.init c9reqA).events.saved = ["./uploads/sample.pdf"]
    ∧ (handle "secret" ServerState.init c9reqB).events.saved = ["./uploads/sample.pdf"] :=
  ⟨by decide, rfl, rfl⟩

/-- C9 (amended): the stored path is
`./uploads/<secure_filename(client filename)>`, a deterministic function of
the client-supplied filename alone; any two validated requests with the same
sanitized filename are stored at the same path (a collision, not
distinctness). -/
theorem C9_same_name_same_path (key₁ key₂ : String) (st₁ st₂ : ServerState)
    (req₁ req₂ : Request) (fp₁ fp₂ : FilePart)
    (hw₁ : withinLimit st₁ req₁) (ha₁ : req₁.authHeader = some ("Bearer " ++ key₁))
    (hf₁ : req₁.file = some fp₁) (hn₁ : fp₁.filename ≠ "")
    (hp₁ : pyEndsWith (pyLower (secure_filename fp₁.filename)) ".pdf" = true)
    (hs₁ : fp₁.saveErr = none)
    (hw₂ : withinLimit st₂ req₂) (ha₂ : req₂.authHeader = some ("Bearer " ++ key₂))
    (hf₂ : req₂.file = some fp₂) (hn₂ : fp₂.filename ≠ "")
    (hp₂ : pyEndsWith (pyLower (secure_filename fp₂.filename)) ".pdf" = true)
    (hs₂ : fp₂.saveErr = none)
    (hname : secure_filename fp₁.filename = secure_filename fp₂.filename) :
    (handle key₁ st₁ req₁).events.saved
      = [osPathJoin UPLOAD_FOLDER (secure_filename fp₁.filename)]
    ∧ (handle key₁ st₁ req₁).events.saved = (handle key₂ st₂ req₂).events.saved := by
  rw [handle_within key₁ st₁ req₁ hw₁, require_api_key_pass key₁ _ req₁ ha₁,
      handle_within key₂ st₂ req₂ hw₂, require_api_key_pass key₂ _ req₂ ha₂]
  have h₁ := viewBody_saved_path req₁.route req₁ fp₁ hf₁ hn₁ hp₁ hs₁
  have h₂ := viewBody_saved_path req₂.route req₂ fp₂ hf₂ hn₂ hp₂ hs₂
  refine ⟨h₁, ?_⟩
  rw [h₁, h₂, hname]

/-- C9 (witness): the amended theorem evaluated on `c9reqA` and `c9reqB`. -/
theorem C9_same_name_same_path_witness :
    (handle "secret" ServerState.init c9reqA).events.saved
      = [osPathJoin UPLOAD_FOLDER (secure_filename "sample.pdf")]
    ∧ (handle "secret" ServerState.init c9reqA).events.saved
      = (handle "secret" ServerState.init c9reqB).events.saved :=
  C9_same_name_same_path "secret" "secret" ServerState.init ServerState.init
    c9reqA c9reqB ⟨"sample.pdf", none, .ok ⟨[⟨"alice", ["a"]⟩]⟩⟩
    ⟨"sample.pdf", none, .ok ⟨[⟨"bob", ["b"]⟩]⟩⟩
    (by decide) rfl rfl (by decide) (by decide) rfl
    (by decide) rfl rfl (by decide) (by decide) rfl rfl

/-- C10: for an authenticated, validated `/pdf-to-html` upload that `fitz`
opens successfully, any document with at least one page makes
`extract_html_from_pdf` raise `RuntimeError` (the `str + list` `TypeError`
from `page.get_text("blocks")`), so the response is 400; only a zero-page
document is answered 200, with an empty `html` value. -/
theorem C10_html_route_type_error (apiKey : String) (st : ServerState) (req : Request)
    (fp : FilePart) (doc : PDFDoc)
    (hr : req.route = .toHtml)
    (hw : withinLimit st req) (ha : req.authHeader = some ("Bearer " ++ apiKey))
    (hf : req.file = some fp) (hn : fp.filename ≠ "")
    (hp : pyEndsWith (pyLower (secure_filename fp.filename)) ".pdf" = true)
    (hs : fp.saveErr = none) (hd : fp.fitz = .ok doc) :
    (doc.pages ≠ [] →
      extract_html_from_pdf fp.fitz
        = .error "Error extracting HTML from PDF: can only concatenate str (not \"list\") to str"
      ∧ (handle apiKey st req).resp.status = 400)
    ∧ (doc.pages = [] →
      (handle apiKey st req).resp
        = ⟨200, some [("status", .atom (.str "success")),
                      ("data", .obj [("filename", .str (secure_filename fp.filename)),
                                     ("html", .str "")]),
                      ("message", .atom (.str "HTML successfully extracted."))]⟩) := by
  constructor
  · intro hne
    have hext : extract_html_from_pdf fp.fitz
        = .error "Error extracting HTML from PDF: can only concatenate str (not \"list\") to str" := by
      rw [hd]; exact extract_html_nonempty doc hne
    refine ⟨hext, ?_⟩
    have hee : extractFor req.route fp.fitz
        = .error "Error extracting HTML from PDF: can only concatenate str (not \"list\") to str" := by
      rw [hr]; exact hext
    rw [handle_within apiKey st req hw, require_api_key_pass apiKey _ req ha,
        viewBody_engine_error req.route req fp _ hf hn hp hs hee]
  · intro hnil
    have hext : extract_html_from_pdf fp.fitz = .ok (.str "") := by
      rw [hd]
      simp only [extract_html_from_pdf]
      rw [hnil]
      rfl
    have hee : extractFor req.route fp.fitz = .ok (.str "") := by
      rw [hr]; exact hext
    rw [handle_within apiKey st req hw, require_api_key_pass apiKey _ req ha,
        viewBody_engine_ok req.route req fp _ hf hn hp hs hee, hr]
    rfl

/-- C10 (witness): the theorem evaluated on `c10req` (a one-page upload to
`/pdf-to-html`). -/
theorem C10_html_route_type_error_witness :
    extract_html_from_pdf (.ok ⟨[⟨"hello", ["block1"]⟩]⟩)
      = .error "Error extracting HTML from PDF: can only concatenate str (not \"list\") to str"
    ∧ (handle "secret" ServerState.init c10req).resp.status = 400 :=
  (C10_html_route_type_error "secret" ServerState.init c10req
    ⟨"sample.pdf", none, .ok ⟨[⟨"hello", ["block1"]⟩]⟩⟩ ⟨[⟨"hello", ["block1"]⟩]⟩
    rfl (by decide) rfl rfl (by decide) (by decide) rfl rfl).1 (by decide)
